import Mathlib

/-!
Shallow embedding of `zynthian_ctrldev_akai_mpd_218.py`, the Akai MPD218
control-device driver (the "Mapper").  The driver translates raw MIDI
channel-voice messages into calls on two external collaborators: a step
sequencer (`togglePlayState`, `setPlayState`, `getPadFromXY`) and a mixer
(`setLevel`).  The only mutable state is the integer field
`currentNotePressed` (sentinel `-1` when no note is held).

Python's `//` and `%` on integers are floor division and floor modulus; for
the positive divisors used here (always 4) these coincide with Euclidean
division, so they are embedded as `Int.ediv` / `Int.emod` (Lean's `/` and `%`
on `Int`).  The external collaborators are modelled as an environment
(`MidiEnv`): an arbitrary pad-lookup function and an arbitrary current
sequencer bank.  Each handler returns the updated `currentNotePressed`
together with the list of collaborator calls it makes, in order.
-/

namespace MPD218

/-- Source class constants (lines 51–57): pad note ranges of banks A, B, C. -/
def PAD_BANK_A_NOTE_PAD_START : Int := 36

def PAD_BANK_B_NOTE_PAD_START : Int := 52

def PAD_BANK_C_NOTE_PAD_START : Int := 68

def PAD_BANK_A_NOTE_PAD_END : Int := 51

def PAD_BANK_B_NOTE_PAD_END : Int := 67

def PAD_BANK_C_NOTE_PAD_END : Int := 83

/-- Source class constants (lines 59–65): dial CC ranges of banks A, B, C. -/
def CTRL_BANK_A_NOTE_DIAL_START : Int := 3

def CTRL_BANK_B_NOTE_DIAL_START : Int := 16

def CTRL_BANK_C_NOTE_DIAL_START : Int := 22

def CTRL_BANK_A_NOTE_DIAL_END : Int := 15

def CTRL_BANK_B_NOTE_DIAL_END : Int := 21

def CTRL_BANK_C_NOTE_DIAL_END : Int := 27

/-- Source constant (line 71). -/
def MAX_DIAL : Int := 127

/-- Source constant (line 72). -/
def MAX_PRESSURE : Int := 127

/-- Source constant (line 74). -/
def PADS_IN_ROW : Int := 4

/-- Source constant (line 75). -/
def PADS_IN_COLUMN : Int := 4

/-- One outbound call to a collaborator (sequencer or mixer).  The mixer level
is the exact rational value of Python's true division `ccval / 127`. -/
inductive Call where
  | togglePlayState (bank pad : Int)
  | setPlayState (bank pad state : Int)
  | setLevel (channel : Int) (level : ℚ)
  deriving DecidableEq, Repr

/-- The external collaborators the driver reads from: `zynseq.get_pad_from_xy`
(an arbitrary total lookup returning a negative sentinel for unassigned
coordinates) and the current sequencer bank `zynseq.bank`. -/
structure MidiEnv where
  getPadFromXY : Int → Int → Int
  bank : Int

/-- Embedding of `get_note_xy` (source lines 86–105): classify the note into a
pad bank by three sequential (non-elif) range tests, each overwriting
`bank`/`note_start_offset`, then compute `row = 4 - offset // 4 - 1` and
`col = offset % 4`.  Returns `(col, row, bank)`; bank is `""` and the offset
stays 0 when the note is outside all three ranges. -/
def get_note_xy (note : Int) : Int × Int × String :=
  let p0 : String × Int := ("", 0)
  let p1 := if PAD_BANK_A_NOTE_PAD_START ≤ note ∧ note ≤ PAD_BANK_A_NOTE_PAD_END then
      ("A", PAD_BANK_A_NOTE_PAD_START) else p0
  let p2 := if PAD_BANK_B_NOTE_PAD_START ≤ note ∧ note ≤ PAD_BANK_B_NOTE_PAD_END then
      ("B", PAD_BANK_B_NOTE_PAD_START) else p1
  let p3 := if PAD_BANK_C_NOTE_PAD_START ≤ note ∧ note ≤ PAD_BANK_C_NOTE_PAD_END then
      ("C", PAD_BANK_C_NOTE_PAD_START) else p2
  let bank := p3.1
  let note_start_offset := p3.2
  let row := 4 - (note - note_start_offset) / PADS_IN_ROW - 1
  let col := (note - note_start_offset) % PADS_IN_COLUMN
  (col, row, bank)

/-- Embedding of `note_on` (source lines 125–132): decode the coordinate, set
`currentNotePressed := note` unconditionally, look the pad up, and toggle its
play state only when the pad index is non-negative.  Returns the new
`currentNotePressed` and the calls made. -/
def note_on (env : MidiEnv) (note _channel _velocity : Int) : Int × List Call :=
  let xy := get_note_xy note
  let currentNotePressed := note
  let pad := env.getPadFromXY xy.1 xy.2.1
  if pad ≥ 0 then (currentNotePressed, [Call.togglePlayState env.bank pad])
  else (currentNotePressed, [])

/-- Embedding of `note_off` (source lines 134–136): reset `currentNotePressed`
to the sentinel `-1`, whatever note the off event names; no calls are made. -/
def note_off (_note _channel : Int) : Int :=
  -1

/-- Embedding of `pressureChange` (source lines 138–148): on maximum pressure
(127) force the play state of pads `currentNotePressed` through
`currentNotePressed + 3` to 0, in order; otherwise do nothing.  The source has
no guard on `currentNotePressed` being a real note. -/
def pressureChange (bank currentNotePressed _channel pressure : Int) : List Call :=
  if pressure = MAX_PRESSURE then
    [Call.setPlayState bank currentNotePressed 0,
     Call.setPlayState bank (currentNotePressed + 1) 0,
     Call.setPlayState bank (currentNotePressed + 2) 0,
     Call.setPlayState bank (currentNotePressed + 3) 0]
  else []

/-- Embedding of `cc_change` (source lines 150–174): resolve a mixer channel
from the CC number through three sequential range tests (bank A with its
irregular explicit cases, then banks B and C by subtraction), starting from
the sentinel `-1`; when a channel was resolved, call `set_level` with the
true-division level `ccval / MAX_DIAL`. -/
def cc_change (ccnum ccval : Int) : List Call :=
  let mixer_channel : Int := -1
  let mixer_channel :=
    if CTRL_BANK_A_NOTE_DIAL_START ≤ ccnum ∧ ccnum ≤ CTRL_BANK_A_NOTE_DIAL_END then
      let mc := mixer_channel
      let mc := if ccnum = 3 then 0 else mc
      let mc := if ccnum = 9 then 1 else mc
      let mc := if ccnum = 12 then 2 else mc
      let mc := if 13 ≤ ccnum ∧ ccnum ≤ CTRL_BANK_A_NOTE_DIAL_END then
          ccnum - CTRL_BANK_A_NOTE_DIAL_START else mc
      mc
    else mixer_channel
  let mixer_channel :=
    if CTRL_BANK_B_NOTE_DIAL_START ≤ ccnum ∧ ccnum ≤ CTRL_BANK_B_NOTE_DIAL_END then
      ccnum - CTRL_BANK_B_NOTE_DIAL_START
    else mixer_channel
  let mixer_channel :=
    if CTRL_BANK_C_NOTE_DIAL_START ≤ ccnum ∧ ccnum ≤ CTRL_BANK_C_NOTE_DIAL_END then
      ccnum - CTRL_BANK_C_NOTE_DIAL_START
    else mixer_channel
  if mixer_channel > -1 then
    [Call.setLevel mixer_channel ((ccval : ℚ) / (MAX_DIAL : ℚ))]
  else []

namespace CONST

/-- Modelled from the spec: the MIDI message-type code `CONST.MIDI_NOTE_ON` is
imported from `zynthian_ctrldev_base_extended`, which is not in the repository;
the spec (§6) fixes it to the standard MIDI note-on status nibble `0x9`. -/
def MIDI_NOTE_ON : Nat := 0x9

/-- Modelled from the spec: `CONST.MIDI_NOTE_OFF`, the standard MIDI note-off
status nibble `0x8` (spec §6). -/
def MIDI_NOTE_OFF : Nat := 0x8

/-- Modelled from the spec: `CONST.MIDI_CC`, the standard MIDI control-change
status nibble `0xB` (spec §6). -/
def MIDI_CC : Nat := 0xB

end CONST

/-- Embedding of `midi_event` (source lines 107–123): classify a 3-byte event
by the high nibble of byte 0, mask the data bytes to 7 bits and the channel to
the low nibble, and dispatch to the corresponding handler.  Unhandled message
types leave the state unchanged and make no call.  The state argument is the
current `currentNotePressed`; the result is the updated value and the calls. -/
def midi_event (env : MidiEnv) (st : Int) (ev : Nat × Nat × Nat) : Int × List Call :=
  let evtype := (ev.1 >>> 4) &&& 0x0F
  let note : Int := ((ev.2.1 &&& 0x7F : Nat) : Int)
  let velocity : Int := ((ev.2.2 &&& 0x7F : Nat) : Int)
  let channel : Int := ((ev.1 &&& 0x0F : Nat) : Int)
  if evtype = CONST.MIDI_NOTE_ON then
    note_on env note channel velocity
  else if evtype = CONST.MIDI_NOTE_OFF then
    (note_off note channel, [])
  else if evtype = CONST.MIDI_CC then
    let ccnum : Int := ((ev.2.1 &&& 0x7F : Nat) : Int)
    let ccval : Int := ((ev.2.2 &&& 0x7F : Nat) : Int)
    (st, cc_change ccnum ccval)
  else if evtype = 0xD then
    (st, pressureChange env.bank st channel note)
  else (st, [])

/-- Run a sequence of MIDI events through the Mapper, threading
`currentNotePressed` and concatenating the collaborator calls in order. -/
def run_events (env : MidiEnv) (st : Int) : List (Nat × Nat × Nat) → Int × List Call
  | [] => (st, [])
  | e :: rest =>
    let r1 := midi_event env st e
    let r2 := run_events env r1.1 rest
    (r2.1, r1.2 ++ r2.2)

/-- A concrete sequencer environment for witnesses: every 4×4 coordinate is
assigned the pad `row * 4 + col` and the current bank is 0. -/
def padGrid : MidiEnv :=
  ⟨fun c r => r * 4 + c, 0⟩

/-- A concrete sequencer environment in which no coordinate has a pad:
`get_pad_from_xy` always answers the negative sentinel. -/
def padNone : MidiEnv :=
  ⟨fun _ _ => -1, 0⟩

/-- Closed form of `get_note_xy`: the last matching range test wins (the three
ranges are disjoint, so this is the unique matching one), and outside all
ranges the offset stays 0. -/
lemma get_note_xy_eq (n : Int) :
    get_note_xy n =
      if 68 ≤ n ∧ n ≤ 83 then ((n - 68) % 4, 4 - (n - 68) / 4 - 1, "C")
      else if 52 ≤ n ∧ n ≤ 67 then ((n - 52) % 4, 4 - (n - 52) / 4 - 1, "B")
      else if 36 ≤ n ∧ n ≤ 51 then ((n - 36) % 4, 4 - (n - 36) / 4 - 1, "A")
      else (n % 4, 4 - n / 4 - 1, "") := by
  simp only [get_note_xy, PAD_BANK_A_NOTE_PAD_START, PAD_BANK_A_NOTE_PAD_END,
    PAD_BANK_B_NOTE_PAD_START, PAD_BANK_B_NOTE_PAD_END,
    PAD_BANK_C_NOTE_PAD_START, PAD_BANK_C_NOTE_PAD_END,
    PADS_IN_ROW, PADS_IN_COLUMN]
  split_ifs <;> simp_all

/-- `(MAX_DIAL : ℚ)` is the rational 127. -/
lemma max_dial_q : (MAX_DIAL : ℚ) = 127 := by
  norm_num [MAX_DIAL]

/-- Closed form of `cc_change`: the last matching range test wins (the ranges
are disjoint), bank A resolving only its six explicit CC numbers. -/
lemma cc_change_eq (ccnum ccval : Int) :
    cc_change ccnum ccval =
      if 22 ≤ ccnum ∧ ccnum ≤ 27 then [Call.setLevel (ccnum - 22) ((ccval : ℚ) / 127)]
      else if 16 ≤ ccnum ∧ ccnum ≤ 21 then [Call.setLevel (ccnum - 16) ((ccval : ℚ) / 127)]
      else if 13 ≤ ccnum ∧ ccnum ≤ 15 then [Call.setLevel (ccnum - 3) ((ccval : ℚ) / 127)]
      else if ccnum = 12 then [Call.setLevel 2 ((ccval : ℚ) / 127)]
      else if ccnum = 9 then [Call.setLevel 1 ((ccval : ℚ) / 127)]
      else if ccnum = 3 then [Call.setLevel 0 ((ccval : ℚ) / 127)]
      else [] := by
  rw [show ((127 : ℚ)) = (MAX_DIAL : ℚ) from by norm_num [MAX_DIAL]]
  simp only [cc_change, CTRL_BANK_A_NOTE_DIAL_START, CTRL_BANK_A_NOTE_DIAL_END,
    CTRL_BANK_B_NOTE_DIAL_START, CTRL_BANK_B_NOTE_DIAL_END,
    CTRL_BANK_C_NOTE_DIAL_START, CTRL_BANK_C_NOTE_DIAL_END]
  split_ifs <;> first | rfl | omega

/-- `note_on` always stores the incoming note in `currentNotePressed`,
whether or not a pad was found. -/
lemma note_on_fst (env : MidiEnv) (n ch vel : Int) :
    (note_on env n ch vel).1 = n := by
  simp only [note_on]
  split_ifs <;> rfl

/-- The calls `note_on` makes depend on the note only through its decoded
column and row. -/
lemma note_on_calls_congr (env : MidiEnv) (n m ch vel ch2 vel2 : Int)
    (hc : (get_note_xy n).1 = (get_note_xy m).1)
    (hr : (get_note_xy n).2.1 = (get_note_xy m).2.1) :
    (note_on env n ch vel).2 = (note_on env m ch2 vel2).2 := by
  simp only [note_on, hc, hr]
  split_ifs <;> rfl

/-- C1: the claim says a channel-pressure event received while the Mapper is
Idle (`currentNotePressed = -1`) makes no `setPlayState` call, in particular
after note-on(40), note-off(40), pressure(127).  The code has no guard on the
sentinel: this theorem evaluates the driver on exactly that event sequence and
shows it emits `setPlayState` for the pad indices -1, 0, 1 and 2 — the claim's
"no setPlayState calls" fails, and the sentinel is itself passed to the
sequencer as a pad index. -/
theorem C1_pressure_while_idle_calls_setPlayState :
    run_events padGrid (-1) [(0x99, 40, 100), (0x89, 40, 0), (0xD9, 127, 0)] =
      (-1, [Call.togglePlayState 0 8,
            Call.setPlayState 0 (-1) 0, Call.setPlayState 0 0 0,
            Call.setPlayState 0 1 0, Call.setPlayState 0 2 0]) ∧
    pressureChange 0 (-1) 9 127 ≠ [] := by
  constructor
  · decide
  · decide

/-- C2: a channel-pressure event with value `v` while note `n` is held makes
exactly the four calls `setPlayState bank n 0`, `setPlayState bank (n+1) 0`,
`setPlayState bank (n+2) 0`, `setPlayState bank (n+3) 0`, in that order, when
`v = 127`, and no call at all when `v ≠ 127`. -/
theorem C2_pressure_while_held (bank n ch v : Int) :
    (v = 127 → pressureChange bank n ch v =
      [Call.setPlayState bank n 0, Call.setPlayState bank (n + 1) 0,
       Call.setPlayState bank (n + 2) 0, Call.setPlayState bank (n + 3) 0]) ∧
    (v ≠ 127 → pressureChange bank n ch v = []) := by
  constructor
  · intro hv
    simp [pressureChange, MAX_PRESSURE, hv]
  · intro hv
    simp [pressureChange, MAX_PRESSURE, hv]

/-- C2 witness: at bank 0 and held note 40, pressure 127 emits the four scene
calls for pads 40–43 and pressure 100 emits nothing. -/
theorem C2_pressure_while_held_witness :
    pressureChange 0 40 9 127 =
      [Call.setPlayState 0 40 0, Call.setPlayState 0 41 0,
       Call.setPlayState 0 42 0, Call.setPlayState 0 43 0] ∧
    pressureChange 0 40 9 100 = [] := by
  constructor
  · have h := (C2_pressure_while_held 0 40 9 127).1 rfl
    norm_num at h
    exact h
  · exact (C2_pressure_while_held 0 40 9 100).2 (by decide)

/-- C3: for notes in [36,51] `get_note_xy` answers bank "A" with
`col = (n-36) % 4` and `row = 3 - (n-36) / 4`; for [52,67] bank "B" over
offset `n-52`; for [68,83] bank "C" over offset `n-68`. -/
theorem C3_note_decoder_bank_formulas (n : Int) :
    (36 ≤ n ∧ n ≤ 51 → get_note_xy n = ((n - 36) % 4, 3 - (n - 36) / 4, "A")) ∧
    (52 ≤ n ∧ n ≤ 67 → get_note_xy n = ((n - 52) % 4, 3 - (n - 52) / 4, "B")) ∧
    (68 ≤ n ∧ n ≤ 83 → get_note_xy n = ((n - 68) % 4, 3 - (n - 68) / 4, "C")) := by
  refine ⟨fun h => ?_, fun h => ?_, fun h => ?_⟩ <;>
    rw [get_note_xy_eq] <;>
    split_ifs <;>
    first
      | omega
      | (simp only [Prod.mk.injEq, true_and, and_true] <;> omega)

/-- C3 witness: the claim's spot checks, `decode 36 = (0, 3, A)`,
`decode 51 = (3, 0, A)` and `decode 83 = (3, 0, C)`, plus a bank-B point. -/
theorem C3_note_decoder_bank_formulas_witness :
    get_note_xy 36 = (0, 3, "A") ∧ get_note_xy 51 = (3, 0, "A") ∧
    get_note_xy 55 = (3, 3, "B") ∧ get_note_xy 83 = (3, 0, "C") := by
  refine ⟨?_, ?_, ?_, ?_⟩
  · have h := (C3_note_decoder_bank_formulas 36).1 (by decide)
    norm_num at h
    exact h
  · have h := (C3_note_decoder_bank_formulas 51).1 (by decide)
    norm_num at h
    exact h
  · have h := (C3_note_decoder_bank_formulas 55).2.1 (by decide)
    norm_num at h
    exact h
  · have h := (C3_note_decoder_bank_formulas 83).2.2 (by decide)
    norm_num at h
    exact h

/-- C4: `cc_change` resolves a mixer channel exactly for CC numbers 3, 9, 12,
13–15 (bank A, channels 0, 1, 2, ccnum−3), 16–21 (bank B, ccnum−16) and
22–27 (bank C, ccnum−22); the bank-A gaps 4–8, 10 and 11 resolve nothing and
emit no mixer call. -/
theorem C4_cc_decoder_channels (ccnum ccval : Int) :
    (ccnum = 3 → cc_change ccnum ccval = [Call.setLevel 0 ((ccval : ℚ) / 127)]) ∧
    (ccnum = 9 → cc_change ccnum ccval = [Call.setLevel 1 ((ccval : ℚ) / 127)]) ∧
    (ccnum = 12 → cc_change ccnum ccval = [Call.setLevel 2 ((ccval : ℚ) / 127)]) ∧
    (13 ≤ ccnum ∧ ccnum ≤ 15 →
      cc_change ccnum ccval = [Call.setLevel (ccnum - 3) ((ccval : ℚ) / 127)]) ∧
    (16 ≤ ccnum ∧ ccnum ≤ 21 →
      cc_change ccnum ccval = [Call.setLevel (ccnum - 16) ((ccval : ℚ) / 127)]) ∧
    (22 ≤ ccnum ∧ ccnum ≤ 27 →
      cc_change ccnum ccval = [Call.setLevel (ccnum - 22) ((ccval : ℚ) / 127)]) ∧
    ((4 ≤ ccnum ∧ ccnum ≤ 8) ∨ ccnum = 10 ∨ ccnum = 11 →
      cc_change ccnum ccval = []) ∧
    (cc_change ccnum ccval ≠ [] →
      ccnum = 3 ∨ ccnum = 9 ∨ ccnum = 12 ∨ (13 ≤ ccnum ∧ ccnum ≤ 27)) := by
  rw [cc_change_eq]
  refine ⟨fun h => ?_, fun h => ?_, fun h => ?_, fun h => ?_, fun h => ?_,
    fun h => ?_, fun h => ?_, fun h => ?_⟩
  · subst h; norm_num
  · subst h; norm_num
  · subst h; norm_num
  · split_ifs <;> first | rfl | omega
  · split_ifs <;> first | rfl | omega
  · split_ifs <;> first | rfl | omega
  · split_ifs <;> first | rfl | omega
  · split_ifs at h <;> first | omega | simp at h

/-- C4 witness: CC 13 at value 64 resolves channel 10, CC 4 resolves nothing,
CC 16 resolves channel 0, CC 27 resolves channel 5. -/
theorem C4_cc_decoder_channels_witness :
    cc_change 13 64 = [Call.setLevel 10 (((64 : Int) : ℚ) / 127)] ∧
    cc_change 4 99 = [] ∧
    cc_change 16 64 = [Call.setLevel 0 (((64 : Int) : ℚ) / 127)] ∧
    cc_change 27 64 = [Call.setLevel 5 (((64 : Int) : ℚ) / 127)] := by
  refine ⟨?_, ?_, ?_, ?_⟩
  · have h := (C4_cc_decoder_channels 13 64).2.2.2.1 (by decide)
    norm_num at h ⊢
    exact h
  · exact (C4_cc_decoder_channels 4 99).2.2.2.2.2.2.1 (Or.inl (by decide))
  · have h := (C4_cc_decoder_channels 16 64).2.2.2.2.1 (by decide)
    norm_num at h ⊢
    exact h
  · have h := (C4_cc_decoder_channels 27 64).2.2.2.2.2.1 (by decide)
    norm_num at h ⊢
    exact h

/-- C5: a note outside all three pad ranges still decodes (the embedding is a
total function): the bank is the empty string and the coordinate is computed
against offset 0, `col = n % 4`, `row = 3 - n / 4`. -/
theorem C5_out_of_range_note_total (n : Int) (h0 : 0 ≤ n) (h1 : n ≤ 127)
    (h : n < 36 ∨ 83 < n) :
    get_note_xy n = (n % 4, 3 - n / 4, "") := by
  rw [get_note_xy_eq, if_neg (by omega), if_neg (by omega), if_neg (by omega)]
  simp only [Prod.mk.injEq, true_and, and_true]
  omega

/-- C5 witness: note 84 (just above bank C) decodes to column 0, row −18,
empty bank, without failing. -/
theorem C5_out_of_range_note_total_witness :
    get_note_xy 84 = (0, -18, "") := by
  have h := C5_out_of_range_note_total 84 (by decide) (by decide) (Or.inr (by decide))
  norm_num at h
  exact h

/-- C6: a note in [0,15], outside all declared pad ranges, decodes to the
empty bank but an in-range coordinate — the same column and row as bank-A note
`n + 36` — so its note-on reaches `getPadFromXY` with a valid coordinate and
makes exactly the calls the corresponding bank-A note would make. -/
theorem C6_low_notes_alias_bankA (n : Int) (h0 : 0 ≤ n) (h1 : n ≤ 15) :
    ((get_note_xy n).2.2 = "" ∧
     0 ≤ (get_note_xy n).1 ∧ (get_note_xy n).1 ≤ 3 ∧
     0 ≤ (get_note_xy n).2.1 ∧ (get_note_xy n).2.1 ≤ 3 ∧
     (get_note_xy n).1 = (get_note_xy (n + 36)).1 ∧
     (get_note_xy n).2.1 = (get_note_xy (n + 36)).2.1) ∧
    ∀ env : MidiEnv, ∀ ch vel ch2 vel2 : Int,
      (note_on env n ch vel).2 = (note_on env (n + 36) ch2 vel2).2 := by
  have hA := get_note_xy_eq n
  rw [if_neg (by omega), if_neg (by omega), if_neg (by omega)] at hA
  have hB := get_note_xy_eq (n + 36)
  rw [if_neg (by omega), if_neg (by omega), if_pos (by omega)] at hB
  have hc : (get_note_xy n).1 = (get_note_xy (n + 36)).1 := by
    rw [hA, hB]; dsimp only; omega
  have hr : (get_note_xy n).2.1 = (get_note_xy (n + 36)).2.1 := by
    rw [hA, hB]; dsimp only; omega
  refine ⟨⟨?_, ?_, ?_, ?_, ?_, hc, hr⟩, ?_⟩
  · rw [hA]
  · rw [hA]; dsimp only; omega
  · rw [hA]; dsimp only; omega
  · rw [hA]; dsimp only; omega
  · rw [hA]; dsimp only; omega
  · intro env ch vel ch2 vel2
    exact note_on_calls_congr env n (n + 36) ch vel ch2 vel2 hc hr

/-- C6 witness: note 5 decodes to the empty bank, and under the full pad grid
its note-on makes exactly the calls of bank-A note 41. -/
theorem C6_low_notes_alias_bankA_witness :
    (get_note_xy 5).2.2 = "" ∧
    (note_on padGrid 5 9 100).2 = (note_on padGrid 41 9 100).2 := by
  have h := C6_low_notes_alias_bankA 5 (by decide) (by decide)
  refine ⟨h.1.1, ?_⟩
  have h2 := h.2 padGrid 9 100 9 100
  norm_num at h2
  exact h2

/-- C7: a CC number matching none of the three dial ranges (below 3 or above
27) resolves no mixer channel and `cc_change` emits no call at all. -/
theorem C7_out_of_range_cc_noop (ccnum ccval : Int) (h : ccnum < 3 ∨ 27 < ccnum) :
    cc_change ccnum ccval = [] := by
  rw [cc_change_eq, if_neg (by omega), if_neg (by omega), if_neg (by omega),
    if_neg (by omega), if_neg (by omega), if_neg (by omega)]

/-- C7 witness: CC numbers 0, 1, 2, 28 and 100 each emit no mixer call. -/
theorem C7_out_of_range_cc_noop_witness :
    cc_change 0 64 = [] ∧ cc_change 1 64 = [] ∧ cc_change 2 64 = [] ∧
    cc_change 28 64 = [] ∧ cc_change 100 64 = [] :=
  ⟨C7_out_of_range_cc_noop 0 64 (Or.inl (by decide)),
   C7_out_of_range_cc_noop 1 64 (Or.inl (by decide)),
   C7_out_of_range_cc_noop 2 64 (Or.inl (by decide)),
   C7_out_of_range_cc_noop 28 64 (Or.inr (by decide)),
   C7_out_of_range_cc_noop 100 64 (Or.inr (by decide))⟩

/-- C8: whenever `cc_change` resolves a channel it makes exactly one
`setLevel` call, whose level is the exact rational `ccval / 127`, and every
level it ever sends lies in [0,1] for `ccval` in [0,127]; at `ccval = 127` the
level is exactly 1 and at `ccval = 0` exactly 0. -/
theorem C8_set_level_normalisation (ccnum ccval : Int) (h0 : 0 ≤ ccval)
    (h1 : ccval ≤ 127) :
    (cc_change ccnum ccval = [] ∨
      ∃ c : Int, cc_change ccnum ccval = [Call.setLevel c ((ccval : ℚ) / 127)]) ∧
    (∀ c : Int, ∀ l : ℚ, Call.setLevel c l ∈ cc_change ccnum ccval →
      l = (ccval : ℚ) / 127 ∧ 0 ≤ l ∧ l ≤ 1) ∧
    (ccval = 127 → ((ccval : ℚ) / 127 : ℚ) = 1) ∧
    (ccval = 0 → ((ccval : ℚ) / 127 : ℚ) = 0) := by
  have hlvl : (0 : ℚ) ≤ (ccval : ℚ) / 127 ∧ ((ccval : ℚ) / 127 : ℚ) ≤ 1 := by
    constructor
    · apply div_nonneg _ (by norm_num)
      exact_mod_cast h0
    · rw [div_le_one (by norm_num)]
      exact_mod_cast h1
  refine ⟨?_, ?_, ?_, ?_⟩
  · rw [cc_change_eq]
    split_ifs
    · exact Or.inr ⟨ccnum - 22, rfl⟩
    · exact Or.inr ⟨ccnum - 16, rfl⟩
    · exact Or.inr ⟨ccnum - 3, rfl⟩
    · exact Or.inr ⟨2, rfl⟩
    · exact Or.inr ⟨1, rfl⟩
    · exact Or.inr ⟨0, rfl⟩
    · exact Or.inl rfl
  · intro c l hmem
    rw [cc_change_eq] at hmem
    split_ifs at hmem <;>
      simp only [List.mem_singleton, List.not_mem_nil, Call.setLevel.injEq] at hmem <;>
      exact ⟨hmem.2.symm ▸ rfl, hmem.2 ▸ hlvl.1, hmem.2 ▸ hlvl.2⟩
  · intro hv
    subst hv
    norm_num
  · intro hv
    subst hv
    norm_num

/-- C8 witness: CC 3 at full value 127 sets channel 0 to level exactly 1, and
the membership bound applies to it. -/
theorem C8_set_level_normalisation_witness :
    (cc_change 3 127 = [] ∨
      ∃ c : Int, cc_change 3 127 = [Call.setLevel c (((127 : Int) : ℚ) / 127)]) ∧
    ((((127 : Int) : ℚ) / 127 : ℚ) = 1) :=
  ⟨(C8_set_level_normalisation 3 127 (by decide) (by decide)).1,
   (C8_set_level_normalisation 3 127 (by decide) (by decide)).2.2.1 rfl⟩

/-- C9: `note_on` calls `togglePlayState` only when the pad lookup at the
decoded coordinate is non-negative; a negative pad index means no call. -/
theorem C9_negative_pad_skips_toggle (env : MidiEnv) (note ch vel : Int) :
    (env.getPadFromXY (get_note_xy note).1 (get_note_xy note).2.1 < 0 →
      (note_on env note ch vel).2 = []) ∧
    (∀ b p : Int, Call.togglePlayState b p ∈ (note_on env note ch vel).2 →
      0 ≤ env.getPadFromXY (get_note_xy note).1 (get_note_xy note).2.1 ∧
      p = env.getPadFromXY (get_note_xy note).1 (get_note_xy note).2.1) := by
  constructor
  · intro h
    simp only [note_on]
    rw [if_neg (by omega)]
  · intro b p hmem
    simp only [note_on] at hmem
    split_ifs at hmem with hpad
    · simp only [List.mem_singleton, Call.togglePlayState.injEq] at hmem
      exact ⟨hpad, hmem.2⟩
    · simp at hmem

/-- C9 witness: with the all-unassigned pad lookup, note-on 40 makes no call;
with the full grid, the only toggle it makes names the looked-up pad 8. -/
theorem C9_negative_pad_skips_toggle_witness :
    (note_on padNone 40 9 100).2 = [] ∧
    (0 ≤ padGrid.getPadFromXY (get_note_xy 40).1 (get_note_xy 40).2.1 ∧
      (8 : Int) = padGrid.getPadFromXY (get_note_xy 40).1 (get_note_xy 40).2.1) :=
  ⟨(C9_negative_pad_skips_toggle padNone 40 9 100).1 (by decide),
   (C9_negative_pad_skips_toggle padGrid 40 9 100).2 0 8 (by decide)⟩

/-- C10: `currentNotePressed` after any event: a note-on stores the (masked)
note byte unconditionally, a note-off stores the sentinel −1 whatever note it
names, and every other message type leaves the state unchanged. -/
theorem C10_last_pressed_note_state_machine (env : MidiEnv) (st : Int)
    (ev : Nat × Nat × Nat) :
    ((ev.1 >>> 4) &&& 0x0F = 0x9 →
      (midi_event env st ev).1 = ((ev.2.1 &&& 0x7F : Nat) : Int)) ∧
    ((ev.1 >>> 4) &&& 0x0F = 0x8 → (midi_event env st ev).1 = -1) ∧
    ((ev.1 >>> 4) &&& 0x0F ≠ 0x9 → (ev.1 >>> 4) &&& 0x0F ≠ 0x8 →
      (midi_event env st ev).1 = st) := by
  refine ⟨fun h => ?_, fun h => ?_, fun h1 h2 => ?_⟩
  · simp only [midi_event, CONST.MIDI_NOTE_ON]
    rw [if_pos h]
    exact note_on_fst env _ _ _
  · simp only [midi_event, CONST.MIDI_NOTE_ON, CONST.MIDI_NOTE_OFF]
    rw [if_neg (by omega), if_pos h]
    rfl
  · simp only [midi_event, CONST.MIDI_NOTE_ON, CONST.MIDI_NOTE_OFF, CONST.MIDI_CC]
    rw [if_neg h1, if_neg h2]
    split_ifs <;> rfl

/-- C10 witness: a note-on stores 40 even from the Idle state, a note-off
resets to −1 even when it names a different note, and a CC message leaves the
held note untouched. -/
theorem C10_last_pressed_note_state_machine_witness :
    (midi_event padGrid (-1) (0x99, 40, 100)).1 = 40 ∧
    (midi_event padGrid 40 (0x89, 77, 0)).1 = -1 ∧
    (midi_event padGrid 40 (0xB9, 16, 64)).1 = 40 := by
  refine ⟨?_, ?_, ?_⟩
  · have h := (C10_last_pressed_note_state_machine padGrid (-1) (0x99, 40, 100)).1
      (by decide)
    norm_num at h
    exact h
  · exact (C10_last_pressed_note_state_machine padGrid 40 (0x89, 77, 0)).2.1
      (by decide)
  · exact (C10_last_pressed_note_state_machine padGrid 40 (0xB9, 16, 64)).2.2
      (by decide) (by decide)

end MPD218

section Sanity

open MPD218

example : (-7 : Int) / 4 = -2 := by decide
example : (-7 : Int) % 4 = 1 := by decide
example : get_note_xy 36 = (0, 3, "A") := by decide
example : get_note_xy 51 = (3, 0, "A") := by decide
example : get_note_xy 83 = (3, 0, "C") := by decide
example : get_note_xy 40 = (0, 2, "A") := by decide
example : get_note_xy 10 = (2, 1, "") := by decide
example : cc_change 3 127 = [Call.setLevel 0 1] := by
  norm_num [cc_change, CTRL_BANK_A_NOTE_DIAL_START, CTRL_BANK_A_NOTE_DIAL_END,
    CTRL_BANK_B_NOTE_DIAL_START, CTRL_BANK_B_NOTE_DIAL_END,
    CTRL_BANK_C_NOTE_DIAL_START, CTRL_BANK_C_NOTE_DIAL_END, MAX_DIAL]
example : cc_change 13 64 = [Call.setLevel 10 (64 / 127)] := by
  norm_num [cc_change, CTRL_BANK_A_NOTE_DIAL_START, CTRL_BANK_A_NOTE_DIAL_END,
    CTRL_BANK_B_NOTE_DIAL_START, CTRL_BANK_B_NOTE_DIAL_END,
    CTRL_BANK_C_NOTE_DIAL_START, CTRL_BANK_C_NOTE_DIAL_END, MAX_DIAL]
example : cc_change 4 64 = [] := by decide
example : cc_change 100 64 = [] := by decide
example :
    run_events ⟨fun c r => r * 4 + c, 0⟩ (-1) [(0x99, 40, 100), (0x89, 40, 0), (0xD9, 127, 0)] =
      (-1, [Call.togglePlayState 0 8,
            Call.setPlayState 0 (-1) 0, Call.setPlayState 0 0 0,
            Call.setPlayState 0 1 0, Call.setPlayState 0 2 0]) := by decide

end Sanity
